import Mathlib

/-!
Verification of `serial_grid.py` (ES-Alexander/serial-visualisation).

Shallow embedding conventions:
* Python floats are modelled as exact rationals (`ℚ`); the claims under
  study are algebraic identities and control-flow facts, not rounding facts.
* A Python value that may be an `int`, a `float`, a 3-tuple or a `str`
  (the `min_colour` / `max_colour` arguments) is modelled by `PyVal`.
* I/O is modelled as a trace of `Effect`s; the serial stream is a list of
  already-decoded lines, and `cv2.waitKey` results are a list of integers
  (`-1` when no key was pressed, as in OpenCV).
-/

namespace SerialGrid

/-- A Python value as passed for `min_colour` / `max_colour`:
an `int`, a `float`, a 3-tuple of numbers, or a string
(the string case arises when `eval` fails in `__main__` and the raw
input text is left in the variable). -/
inductive PyVal where
  | int : ℤ → PyVal
  | float : ℚ → PyVal
  | tuple3 : ℚ → ℚ → ℚ → PyVal
  | str : String → PyVal
  deriving DecidableEq, Repr

/-- Python `isinstance(v, int)`. -/
def PyVal.isInt : PyVal → Bool
  | .int _ => true
  | _ => false

/-- Python `isinstance(v, float)`. -/
def PyVal.isFloat : PyVal → Bool
  | .float _ => true
  | _ => false

/-- Numeric content of a `PyVal`, when it is a scalar number. -/
def PyVal.num? : PyVal → Option ℚ
  | .int n => some (n : ℚ)
  | .float q => some q
  | _ => none

/-- Python `v == q` for a numeric literal `q` (ints and floats compare
numerically; a tuple or string compared with a number is `False`). -/
def PyVal.numEq (v : PyVal) (q : ℚ) : Bool :=
  match v.num? with
  | some x => decide (x = q)
  | none => false

/-- Python `==` between two such values: numbers compare numerically,
tuples componentwise, strings by content; mixed shapes are unequal. -/
def PyVal.pyEq (a b : PyVal) : Bool :=
  match a.num?, b.num? with
  | some x, some y => decide (x = y)
  | _, _ =>
    match a, b with
    | .tuple3 x y z, .tuple3 x2 y2 z2 => decide (x = x2 ∧ y = y2 ∧ z = z2)
    | .str s, .str t => decide (s = t)
    | _, _ => false

/-- Python `len(v)`: defined for tuples and strings, a `TypeError`
(modelled as `none`) for ints and floats. -/
def PyVal.pyLen : PyVal → Option ℕ
  | .tuple3 _ _ _ => some 3
  | .str s => some s.length
  | _ => none

/-- The three display modes of `Grid` (class constants `COLOUR = 3`,
`GREY = 1`, `DEFAULT = -1`). -/
inductive Mode where
  | COLOUR
  | GREY
  | DEFAULT
  deriving DecidableEq, Repr

/-- Mode selection from `Grid.__init__` lines 88–90:
`self.mode = self.GREY if isinstance(min_colour, int) else self.COLOUR`,
then demoted to `DEFAULT` when the mode is `GREY` and
`min_colour == 0.` and `max_colour == 1.`. -/
def gridMode (min_colour max_colour : PyVal) : Mode :=
  let mode := if min_colour.isInt then Mode.GREY else Mode.COLOUR
  if mode = Mode.GREY ∧ min_colour.numEq 0 ∧ max_colour.numEq 1 then
    Mode.DEFAULT
  else
    mode

/-- Result of a NumPy arithmetic expression over colour arguments:
a scalar or a length-3 array. -/
inductive NpVal where
  | scalar : ℚ → NpVal
  | vec3 : ℚ → ℚ → ℚ → NpVal
  deriving DecidableEq, Repr

/-- `np.array(a) - b` with NumPy broadcasting (`Grid.__init__` line 92):
scalar/scalar, elementwise for tuples, broadcast for mixed
scalar/tuple; `none` models the `TypeError` raised when a string is
involved. -/
def npSub (a b : PyVal) : Option NpVal :=
  match a.num?, b.num? with
  | some x, some y => some (.scalar (x - y))
  | some x, none =>
    match b with
    | .tuple3 p q r => some (.vec3 (x - p) (x - q) (x - r))
    | _ => none
  | none, some y =>
    match a with
    | .tuple3 p q r => some (.vec3 (p - y) (q - y) (r - y))
    | _ => none
  | none, none =>
    match a, b with
    | .tuple3 p q r, .tuple3 p2 q2 r2 => some (.vec3 (p - p2) (q - q2) (r - r2))
    | _, _ => none

/-- Outcome of the colour-validity checks at the top of the display
`try` block (`Grid.__init__` lines 110–115). -/
inductive ColourErr where
  | lenTypeError   -- `len(min_colour)` on an int or float raises TypeError
  | invalidMode    -- `raise Exception('Invalid colour mode, ...')`
  | sameColour     -- `assert min_colour != max_colour`
  deriving DecidableEq, Repr

/-- The colour-validity checks, in source order: in `COLOUR` mode,
`len(min_colour)` is evaluated (TypeError on a scalar) and compared
with 3; then `assert min_colour != max_colour`. -/
def colourCheck (mode : Mode) (min_colour max_colour : PyVal) : Option ColourErr :=
  if mode = Mode.COLOUR then
    match min_colour.pyLen with
    | none => some .lenTypeError
    | some l =>
      if l ≠ 3 then some .invalidMode
      else if min_colour.pyEq max_colour then some .sameColour
      else none
  else if min_colour.pyEq max_colour then some .sameColour
  else none

/-! ### Python numeric-string parsing

Models of the builtin `int(s)` and `float(s)` on plain decimal text
(optional surrounding whitespace, optional sign, digits with at most one
decimal point for `float`). Exotic float syntax (exponents, `inf`,
`nan`) is outside the inputs exercised here. -/

/-- Whitespace characters stripped by Python `str.strip()`. -/
def isWS (c : Char) : Bool :=
  c = ' ' ∨ c = '\t' ∨ c = '\n' ∨ c = '\r' ∨ c = '\x0b' ∨ c = '\x0c'

/-- Python `str.strip()` on a character list. -/
def pyStrip (l : List Char) : List Char :=
  ((l.dropWhile isWS).reverse.dropWhile isWS).reverse

/-- Numeric value of a digit string (caller guarantees digits). -/
def natOfDigits (l : List Char) : ℕ :=
  l.foldl (fun a c => 10 * a + (c.toNat - 48)) 0

/-- All characters are decimal digits. -/
def allDigits (l : List Char) : Bool :=
  l.all Char.isDigit

/-- Unsigned core of `float(s)`: `d+`, `d+.d*`, `.d+` or `d+.d+`. -/
def pyFloatCore (l : List Char) : Option ℚ :=
  let p := l.span (· ≠ '.')
  match p.2 with
  | [] =>
    if p.1 ≠ [] ∧ allDigits p.1 then some (natOfDigits p.1 : ℚ) else none
  | _ :: fp =>
    if (p.1 ≠ [] ∨ fp ≠ []) ∧ allDigits p.1 ∧ allDigits fp then
      some ((natOfDigits p.1 : ℚ) + (natOfDigits fp : ℚ) / (10 : ℚ) ^ fp.length)
    else none

/-- Optional-sign wrapper shared by the numeric parsers. -/
def pySigned (core : List Char → Option ℚ) (l : List Char) : Option ℚ :=
  match l with
  | '-' :: rest => (core rest).map (fun q => -q)
  | '+' :: rest => core rest
  | _ => core l

/-- Model of Python `float(s)` on plain decimal text; `none` models the
`ValueError`. -/
def pyFloat (s : String) : Option ℚ :=
  pySigned pyFloatCore (pyStrip s.data)

/-- Unsigned core of `int(s)`: one or more digits. -/
def pyIntCore (l : List Char) : Option ℚ :=
  if l ≠ [] ∧ allDigits l then some (natOfDigits l : ℚ) else none

/-- Model of Python `int(s)` on plain decimal text; `none` models the
`ValueError`. -/
def pyInt (s : String) : Option ℤ :=
  (pySigned pyIntCore (pyStrip s.data)).map (fun q => q.num)

/-! ### The `Grid` object and `plot_data` -/

/-- A displayed pixel: single-channel grayscale or a BGR triple
(what `cv2.imshow` receives per cell). -/
inductive Pixel where
  | grey : ℚ → Pixel
  | bgr : ℚ → ℚ → ℚ → Pixel
  deriving DecidableEq, Repr

/-- An image: a list of pixel rows. -/
abbrev Image := List (List Pixel)

/-- The state stored by `Grid.__init__` (lines 84–97): configuration,
selected mode, the colour-map coefficients computed once at
construction (`_map_scale`, `_map_offset`), and the resize argument
`self.scale = (clarity * rows, clarity * cols)`. -/
structure Grid where
  rows : ℕ
  cols : ℕ
  min_val : ℚ
  max_val : ℚ
  mode : Mode
  mapScale : Option NpVal
  mapOffset : PyVal
  scale : ℕ × ℕ
  deriving DecidableEq, Repr

/-- `Grid.__init__` lines 84–97: store the configuration, select the
mode, and in non-default modes compute `_map_scale = np.array(max_colour)
- min_colour` and `_map_offset = min_colour`; finally
`self.scale = (clarity * rows, clarity * cols)`. -/
def Grid.make (rows cols : ℕ) (min_val max_val : ℚ) (clarity : ℕ)
    (min_colour max_colour : PyVal) : Grid :=
  let mode := gridMode min_colour max_colour
  { rows := rows
    cols := cols
    min_val := min_val
    max_val := max_val
    mode := mode
    mapScale := if mode = Mode.DEFAULT then none else npSub max_colour min_colour
    mapOffset := min_colour
    scale := (clarity * rows, clarity * cols) }

/-- The errors `plot_data` can raise.  `emptyData` is the `ValueError`
from `data.min()` on a zero-size array, `reshapeMismatch` the
`ValueError` from `reshape(rows, cols)` on a wrong-length array,
`mapFail` a shape failure while applying the colour map (only reachable
from configurations that mix scalar and tuple colours). -/
inductive PlotErr where
  | emptyData
  | reshapeMismatch
  | mapFail
  deriving DecidableEq, Repr

/-- Observable side effects of the renderer, in trace order. -/
inductive Effect where
  | readline                       -- one line read from the stream
  | namedWindow                    -- `cv2.namedWindow('Data', ...)`
  | printQuit                      -- "User quit application"
  | printPaused                    -- "User paused -- continue with c, p, or s"
  | printResumed                   -- "Display resumed"
  | printClosed                    -- "Serial port closed"
  | tokenDropped : List Char → Effect  -- "... could not be converted to a float"
  | warnLow : ℚ → ℚ → Effect       -- "WARNING: datapoint d is < m (min_val)"
  | warnHigh : ℚ → ℚ → Effect      -- "WARNING: datapoint d is > M (max_val)"
  | printFrameErr : PlotErr → Effect   -- `print(e, file=sys.stderr)` in the loop
  | imshow : Image → Effect        -- `cv2.imshow('Data', ...)`
  | close                          -- `ser.close()`
  | destroy                        -- `cv2.destroyAllWindows()`
  deriving DecidableEq, Repr

/-- The constructor of an `Effect`, with payloads erased (used to state
trace-shape facts without forcing evaluation of pixel values). -/
inductive EffectKind where
  | readline
  | namedWindow
  | printQuit
  | printPaused
  | printResumed
  | printClosed
  | tokenDropped
  | warnLow
  | warnHigh
  | printFrameErr
  | imshow
  | close
  | destroy
  deriving DecidableEq, Repr

/-- Erase an effect to its kind. -/
def Effect.kind : Effect → EffectKind
  | .readline => .readline
  | .namedWindow => .namedWindow
  | .printQuit => .printQuit
  | .printPaused => .printPaused
  | .printResumed => .printResumed
  | .printClosed => .printClosed
  | .tokenDropped _ => .tokenDropped
  | .warnLow _ _ => .warnLow
  | .warnHigh _ _ => .warnHigh
  | .printFrameErr _ => .printFrameErr
  | .imshow _ => .imshow
  | .close => .close
  | .destroy => .destroy

/-- Python `line.split('\t')`: splitting an empty string gives `[""]`,
and consecutive tabs give empty fields. -/
def splitTab (l : List Char) : List (List Char) :=
  l.foldr
    (fun c acc =>
      if c = '\t' then [] :: acc
      else
        match acc with
        | a :: rest => (c :: a) :: rest
        | [] => [[c]])
    [[]]

/-- Token conversion from `plot_data` lines 151–158: strip the line,
split on tabs, convert each token with `float`, dropping (with a
diagnostic) tokens that fail. Returns the converted values in order and
the diagnostics in order. -/
def floatTokens (line : String) : List ℚ × List Effect :=
  (splitTab (pyStrip line.data)).foldr
    (fun t acc =>
      match pySigned pyFloatCore (pyStrip t) with
      | some v => (v :: acc.1, acc.2)
      | none => (acc.1, .tokenDropped t :: acc.2))
    ([], [])

/-- Minimum of a nonempty list (`data.min()`); 0 on `[]` (unreached:
the empty case raises before this is used). -/
def listMin : List ℚ → ℚ
  | [] => 0
  | x :: xs => xs.foldl min x

/-- Maximum of a nonempty list (`data.max()`). -/
def listMax : List ℚ → ℚ
  | [] => 0
  | x :: xs => xs.foldl max x

/-- The normalization from `plot_data` line 170:
`(data - self.min_val) / self.max_val` (note: divided by `max_val`,
not by `max_val - min_val`). -/
def Grid.normalize (g : Grid) (v : ℚ) : ℚ :=
  (v - g.min_val) / g.max_val

/-- NumPy `reshape(rows, cols)` in row-major order; callers check that
the length is `rows * cols`. -/
def reshapeRows : ℕ → ℕ → List ℚ → List (List ℚ)
  | 0, _, _ => []
  | r + 1, cols, l => l.take cols :: reshapeRows r cols (l.drop cols)

/-- Application of the colour map to one normalized value
(`plot_data` lines 172–176): per-channel `data * scale + offset` in
`COLOUR` mode, `data * _map_scale + _map_offset` in `GREY` mode, the
identity in `DEFAULT` mode.  `none` models the shape failures reachable
only from mixed scalar/tuple colour configurations. -/
def Grid.mapPixel (g : Grid) (n : ℚ) : Option Pixel :=
  match g.mode with
  | .DEFAULT => some (.grey n)
  | .GREY =>
    match g.mapScale, g.mapOffset.num? with
    | some (.scalar s), some o => some (.grey (n * s + o))
    | _, _ => none
  | .COLOUR =>
    match g.mapScale, g.mapOffset with
    | some (.vec3 s1 s2 s3), .tuple3 o1 o2 o3 =>
      some (.bgr (n * s1 + o1) (n * s2 + o2) (n * s3 + o3))
    | _, _ => none

/-- Apply the colour map to a whole grid, failing if any cell fails. -/
def Grid.mapGrid (g : Grid) : List (List ℚ) → Option Image
  | [] => some []
  | row :: rest =>
    match row.mapM g.mapPixel, g.mapGrid rest with
    | some prow, some prest => some (prow :: prest)
    | _, _ => none

/-- `cv2.resize(img, (w, h), interpolation=cv2.INTER_NEAREST)`.
OpenCV's `dsize` argument is `(width, height)`: the output has `h` rows
of `w` pixels, each sampled from the source at the floor-scaled
index. -/
def resizeNearest (img : Image) (w h : ℕ) : Image :=
  (List.range h).map fun i =>
    (List.range w).map fun j =>
      (img.getD (i * img.length / h) []).getD
        (j * (img.headD []).length / w) (Pixel.grey 0)

/-- The two range warnings of `plot_data` lines 161–168, printed (in
this order) when `data.min() < min_val` and when
`data.max() > max_val`. -/
def Grid.warnEffects (g : Grid) (data : List ℚ) : List Effect :=
  (if listMin data < g.min_val
   then [Effect.warnLow (listMin data) g.min_val] else [])
  ++ (if listMax data > g.max_val
      then [Effect.warnHigh (listMax data) g.max_val] else [])

/-- `plot_data` after token conversion (lines 159–180): fail on empty
data (`data.min()` raises `ValueError` before any warning), emit the
range warnings, normalize, reshape (failing unless the length is
`rows * cols`), apply the colour map and resize by `self.scale` —
which `cv2.resize` reads as `(width, height)`. -/
def Grid.plotCore (g : Grid) (data : List ℚ) : List Effect × Except PlotErr Image :=
  if data = [] then ([], .error .emptyData)
  else if (data.map g.normalize).length = g.rows * g.cols then
    match g.mapGrid (reshapeRows g.rows g.cols (data.map g.normalize)) with
    | some img => (g.warnEffects data, .ok (resizeNearest img g.scale.1 g.scale.2))
    | none => (g.warnEffects data, .error .mapFail)
  else (g.warnEffects data, .error .reshapeMismatch)

/-- `Grid.plot_data` (lines 148–180): read one line (passed in by the
caller), convert tokens, then run the numeric pipeline. -/
def Grid.plot_data (g : Grid) (line : String) : List Effect × Except PlotErr Image :=
  let p := floatTokens line
  let r := g.plotCore p.1
  (p.2 ++ r.1, r.2)

/-- Shape `(number of rows, length of first row)` of a successfully
plotted image. -/
def imageShape : Except PlotErr Image → Option (ℕ × ℕ)
  | .ok img => some (img.length, (img.headD []).length)
  | .error _ => none

/-! ### The display loop (`Grid.__init__` lines 99–146)

`cv2.waitKey` results are modelled as a list of integers (`-1` when no
key is pressed); the serial stream as a list of decoded lines, a read
past its end returning `""` (the timeout behaviour of `readline`). The
main `while` loop is driven by a fuel argument: the real loop is
unbounded, and a run that exhausts the fuel is reported as
`outOfKeys` with no exit effects, the run not having ended. -/

/-- `EXIT_KEYS = [ord('q'), ord('Q'), 27]`. -/
def EXIT_KEYS : List ℤ := [113, 81, 27]

/-- `PAUSE_KEYS = [ord('c'), ord('p'), ord('s')]`. -/
def PAUSE_KEYS : List ℤ := [99, 112, 115]

/-- The `key & 0xFF` masking applied to every `cv2.waitKey` result
(Python `&` on a possibly negative int agrees with `% 256`). -/
def mask (k : ℤ) : ℤ := k % 256

/-- Result of the pause sub-loop: resumed with the unconsumed keys and
lines, quit from inside the loop, or the key script ran out. -/
inductive PauseRes where
  | resumed : List ℤ → List String → PauseRes
  | quit
  | outOfKeys
  deriving DecidableEq, Repr

/-- The pause sub-loop (`Grid.__init__` lines 125–133), entered with the
key that was just pressed still in `key`:
`while (key & 0xFF) not in PAUSE_KEYS:` check for an exit key (quit),
otherwise drain one line and wait for the next key. -/
def pauseLoop (key : ℤ) (keys : List ℤ) (lines : List String) :
    List Effect × PauseRes :=
  if mask key ∈ PAUSE_KEYS then ([], .resumed keys lines)
  else if mask key ∈ EXIT_KEYS then ([.printQuit], .quit)
  else
    match keys with
    | [] => ([.readline], .outOfKeys)
    | k2 :: rest =>
      let r := pauseLoop k2 rest lines.tail
      (.readline :: r.1, r.2)

/-- How the main loop ended. -/
inductive LoopExit where
  | quitMain    -- exit key seen by the main loop (`break`)
  | quitPaused  -- exit key seen inside the pause sub-loop (`return`)
  | outOfKeys   -- model fuel exhausted; the real loop would continue
  deriving DecidableEq, Repr

/-- One frame attempt (`Grid.__init__` lines 135–140): read a line, run
`plot_data`, and on a `UnicodeDecodeError`/`ValueError` print it and
continue.  Returns the effects and the remaining stream. -/
def Grid.frameStep (g : Grid) (lines : List String) :
    List Effect × List String :=
  match (g.plot_data (lines.headD "")).2 with
  | .ok img =>
    (.readline :: (g.plot_data (lines.headD "")).1 ++ [.imshow img],
     lines.tail)
  | .error e =>
    (.readline :: (g.plot_data (lines.headD "")).1 ++ [.printFrameErr e],
     lines.tail)

/-- The main display loop (`Grid.__init__` lines 117–140): wait for a
key; exit keys break; pause keys print the pause message, run the pause
sub-loop, print the resume message and fall through to the frame
attempt of the same iteration; otherwise attempt a frame. -/
def Grid.runLoop (g : Grid) : ℕ → List ℤ → List String → List Effect × LoopExit
  | 0, _, _ => ([], .outOfKeys)
  | _ + 1, [], _ => ([], .outOfKeys)
  | fuel + 1, k :: keys, lines =>
    if mask k ∈ EXIT_KEYS then ([.printQuit], .quitMain)
    else if mask k ∈ PAUSE_KEYS then
      match pauseLoop k keys lines with
      | (es, .resumed keys2 lines2) =>
        (.printPaused :: es ++ .printResumed :: (g.frameStep lines2).1
           ++ (g.runLoop fuel keys2 (g.frameStep lines2).2).1,
         (g.runLoop fuel keys2 (g.frameStep lines2).2).2)
      | (es, .quit) => (.printPaused :: es, .quitPaused)
      | (es, .outOfKeys) => (.printPaused :: es, .outOfKeys)
    else
      ((g.frameStep lines).1 ++ (g.runLoop fuel keys (g.frameStep lines).2).1,
       (g.runLoop fuel keys (g.frameStep lines).2).2)

/-- How a whole `Grid.__init__` run ended. -/
inductive RunExit where
  | quitMain
  | quitPaused
  | fatalColour : ColourErr → RunExit  -- raised in the `try`, re-raised
  | fatalSetup                          -- TypeError at line 92, before the `try`
  | outOfKeys
  deriving DecidableEq, Repr

/-- The three `finally` effects (`Grid.__init__` lines 143–146):
`ser.close()`, the closed message, `cv2.destroyAllWindows()`. -/
def finallyEffects : List Effect := [.close, .printClosed, .destroy]

/-- A full `Grid.__init__` run: compute mode and colour maps (a string
colour makes the NumPy subtraction at line 92 raise before anything is
opened), discard one initial line, create the window, run the colour
validity checks and then the main loop inside `try ... finally`, the
`finally` closing the port and destroying the window on every exit from
the `try`. -/
def Grid.run (rows cols : ℕ) (min_val max_val : ℚ) (clarity : ℕ)
    (min_colour max_colour : PyVal) (fuel : ℕ) (keys : List ℤ)
    (lines : List String) : List Effect × RunExit :=
  if gridMode min_colour max_colour ≠ Mode.DEFAULT
      ∧ npSub max_colour min_colour = none then
    ([], .fatalSetup)
  else
    match colourCheck (gridMode min_colour max_colour) min_colour max_colour with
    | some e =>
      ([Effect.readline, Effect.namedWindow] ++ finallyEffects, .fatalColour e)
    | none =>
      match (Grid.make rows cols min_val max_val clarity
          min_colour max_colour).runLoop fuel keys lines.tail with
      | (es, .outOfKeys) =>
        ([Effect.readline, Effect.namedWindow] ++ es, .outOfKeys)
      | (es, .quitMain) =>
        ([Effect.readline, Effect.namedWindow] ++ es ++ finallyEffects,
         .quitMain)
      | (es, .quitPaused) =>
        ([Effect.readline, Effect.namedWindow] ++ es ++ finallyEffects,
         .quitPaused)

/-! ### Configuration resolution (`__main__`, lines 213–248)

The raw fields are the strings read from the settings file or the
prompts.  Python `eval` on the colour fields can produce an arbitrary
value or raise; its result is passed in as an `Option PyVal`
(`none` = the `except Exception` branch was taken). -/

/-- The raw textual settings, in file order. -/
structure RawSettings where
  port : String
  baud : String
  timeout : String
  rows : String
  cols : String
  min_val : String
  max_val : String
  clarity : String
  min_colour : String
  max_colour : String
  deriving DecidableEq, Repr

/-- The resolved settings handed to `Grid`. -/
structure Settings where
  baud : ℤ
  timeout : ℚ
  rows : ℤ
  cols : ℤ
  min_val : ℚ
  max_val : ℚ
  clarity : ℤ
  min_colour : PyVal
  max_colour : PyVal
  deriving DecidableEq, Repr

/-- Diagnostics printed during resolution. -/
inductive Msg where
  | invalidBaud       -- "invalid baudrate ..., setting to 9600"
  | invalidTimeout    -- "invalid value ..., setting to 5 seconds"
  | invalidMinColour  -- "invalid min_colour ..., setting to 0.0 (black)"
  | invalidMaxColour  -- "invalid max colour ..., setting to ..."
  | invalidClarity    -- "invalid clarity value ..., setting to 10"
  deriving DecidableEq, Repr

/-- The field whose unguarded conversion raised the fatal error. -/
inductive FatalField where
  | rowsField
  | colsField
  | minValField
  | maxValField
  deriving DecidableEq, Repr

/-- `__main__` lines 213–248 in source order: `baud` and `timeout` fall
back to 9600 and 5 with a message; `rows`, `cols`, `min_val`, `max_val`
are converted with no `try` and a failure is fatal; a failed
`eval(min_colour)` only prints its message — the variable keeps the raw
string; a failed `eval(max_colour)` sets white in the shape matching
the current `min_colour` (`1.0` if it is a float, else the triple);
`clarity` falls back to 10 with a message. -/
def resolveSettings (raw : RawSettings) (evalMin evalMax : Option PyVal) :
    List Msg × Except FatalField Settings :=
  let baudR := match pyInt raw.baud with
    | some b => (b, ([] : List Msg))
    | none => (9600, [.invalidBaud])
  let timeoutR := match pyFloat raw.timeout with
    | some t => (t, ([] : List Msg))
    | none => (5, [.invalidTimeout])
  let msgs0 := baudR.2 ++ timeoutR.2
  match pyInt raw.rows with
  | none => (msgs0, .error .rowsField)
  | some rows =>
  match pyInt raw.cols with
  | none => (msgs0, .error .colsField)
  | some cols =>
  match pyFloat raw.min_val with
  | none => (msgs0, .error .minValField)
  | some min_val =>
  match pyFloat raw.max_val with
  | none => (msgs0, .error .maxValField)
  | some max_val =>
    let minR := match evalMin with
      | some v => (v, ([] : List Msg))
      | none => (PyVal.str raw.min_colour, [Msg.invalidMinColour])
    let maxR := match evalMax with
      | some v => (v, ([] : List Msg))
      | none =>
        (if minR.1.isFloat then PyVal.float 1 else PyVal.tuple3 1 1 1,
         [Msg.invalidMaxColour])
    let clarityR := match pyInt raw.clarity with
      | some c => (c, ([] : List Msg))
      | none => (10, [.invalidClarity])
    (msgs0 ++ minR.2 ++ maxR.2 ++ clarityR.2,
     .ok { baud := baudR.1, timeout := timeoutR.1, rows := rows,
           cols := cols, min_val := min_val, max_val := max_val,
           clarity := clarityR.1, min_colour := minR.1,
           max_colour := maxR.1 })

deriving instance DecidableEq for Except

/-! ### Claim theorems -/

/-- C1: for a valid line on a 1×2 grid with clarity 3, the grid before
clarity-scaling is 1×2, but the presented image is 6 rows × 3 columns,
not the claimed 3 rows × 6 columns: `self.scale = (clarity*rows,
clarity*cols)` is passed to `cv2.resize` as its `dsize` argument, which
OpenCV reads as `(width, height)`, so the two dimensions are swapped
whenever `rows ≠ cols`. -/
theorem C1_resize_dims_swapped :
    (reshapeRows 1 2 [0, 1]).length = 1
    ∧ ((reshapeRows 1 2 [0, 1]).headD []).length = 2
    ∧ imageShape
        ((Grid.make 1 2 0 1 3 (PyVal.int 0) (PyVal.int 1)).plot_data "0\t1").2
        = some (6, 3)
    ∧ (6, 3) ≠ (1 * 3, 2 * 3) := by
  decide

/-- C6: a `min_colour` supplied as a single float in `[0,1]` does not
select the grayscale mode: the test `isinstance(min_colour, int)` makes
any non-int — including every float — select `COLOUR` mode, after which
`len(min_colour)` on the float raises `TypeError`.  (A 3-tuple does
select colour mode, as the claim says.) -/
theorem C6_float_selects_colour_mode :
    gridMode (PyVal.float (1 / 2)) (PyVal.float 1) = Mode.COLOUR
    ∧ gridMode (PyVal.float (1 / 2)) (PyVal.float 1) ≠ Mode.GREY
    ∧ colourCheck Mode.COLOUR (PyVal.float (1 / 2)) (PyVal.float 1)
        = some ColourErr.lenTypeError
    ∧ gridMode (PyVal.tuple3 0 0 0) (PyVal.tuple3 1 1 1) = Mode.COLOUR := by
  decide

/-- C9: when `eval(min_colour)` fails, the `except` branch prints
"setting to 0.0 (black)" but contains no assignment, so `min_colour`
keeps the raw input string instead of becoming black; here the raw
field "oops" survives resolution unchanged.  (The `max_colour` fallback
does assign white.) -/
theorem C9_min_colour_fallback_missing :
    (resolveSettings ⟨"p", "9600", "1", "2", "2", "0", "500", "10", "oops", "1.0"⟩
        none (some (PyVal.float 1))).1 = [Msg.invalidMinColour]
    ∧ (resolveSettings ⟨"p", "9600", "1", "2", "2", "0", "500", "10", "oops", "1.0"⟩
        none (some (PyVal.float 1))).2
        = Except.ok ⟨9600, 1, 2, 2, 0, 500, 10, PyVal.str "oops", PyVal.float 1⟩
    ∧ PyVal.str "oops" ≠ PyVal.float 0 := by
  decide

/-- C10: constructing with the constructor's own defaults
`min_colour=0.`, `max_colour=1.` (floats): the `isinstance(..., int)`
test selects `COLOUR` mode rather than the grayscale default, the
`len(min_colour)` check then raises a fatal `TypeError`, and the
`finally` block still closes the serial handle and destroys the
window. -/
theorem C10_default_floats_fatal :
    gridMode (PyVal.float 0) (PyVal.float 1) = Mode.COLOUR
    ∧ colourCheck Mode.COLOUR (PyVal.float 0) (PyVal.float 1)
        = some ColourErr.lenTypeError
    ∧ Grid.run 2 2 0 500 10 (PyVal.float 0) (PyVal.float 1) 0 [] ["x"]
        = ([.readline, .namedWindow, .close, .printClosed, .destroy],
           .fatalColour ColourErr.lenTypeError) := by
  decide

set_option maxRecDepth 16384 in
/-- C2: pressing a pause key does not pause the renderer.  The pause
sub-loop is entered with `key` still holding the pause key that
triggered it, and its guard `while (key & 0xFF) not in PAUSE_KEYS`
is therefore false at once: the sub-loop runs zero iterations, drains no
lines, and the renderer prints the pause and resume messages
back-to-back and renders a frame in the same iteration.  Concretely,
a run with key script `[p, q]` renders a frame (`imshow`) between
"User paused" and "User quit" with no drain read in between. -/
theorem C2_pause_never_pauses :
    (∀ (keys : List ℤ) (lines : List String),
        pauseLoop 112 keys lines = ([], .resumed keys lines))
    ∧ (Grid.run 1 2 0 1 1 (PyVal.int 0) (PyVal.int 1) 2 [112, 113]
        ["x", "0\t1"]).1.map Effect.kind
        = [.readline, .namedWindow, .printPaused, .printResumed, .readline,
           .imshow, .printQuit, .close, .printClosed, .destroy]
    ∧ (Grid.run 1 2 0 1 1 (PyVal.int 0) (PyVal.int 1) 2 [112, 113]
        ["x", "0\t1"]).2 = .quitMain := by
  refine ⟨fun keys lines => ?_, by decide, by decide⟩
  unfold pauseLoop
  rw [if_pos (by decide : mask 112 ∈ PAUSE_KEYS)]

/-- `List.range 1` evaluated (helper). -/
theorem range_one_eq : List.range 1 = [0] := by decide

/-- Nearest-neighbour resize of a 1×1 image to 1×1 is the identity
(helper). -/
theorem resizeNearest_single (p : Pixel) : resizeNearest [[p]] 1 1 = [[p]] := by
  simp [resizeNearest, range_one_eq]

/-- C3 counterexample: with `min_val = 10`, `max_val = 100`, the sample
`101` is above `max_val` and triggers the warning, yet its displayed
intensity `(101 - 10) / 100 = 0.91` lies inside `[0, 1]` — the claim
that out-of-range values always normalize outside `[0, 1]` fails
(the code divides by `max_val`, not by `max_val - min_val`). -/
theorem C3_above_max_inside_unit_interval :
    (Grid.make 1 1 10 100 1 (PyVal.int 0) (PyVal.int 1)).max_val = 100
    ∧ (Grid.make 1 1 10 100 1 (PyVal.int 0) (PyVal.int 1)).plot_data "101"
        = ([.warnHigh 101 100], .ok [[.grey ((101 - 10) / 100)]])
    ∧ (101 : ℚ) > 100
    ∧ (0 : ℚ) ≤ (101 - 10) / 100 ∧ ((101 - 10) / 100 : ℚ) ≤ 1 := by
  refine ⟨rfl, rfl, by norm_num, by norm_num, by norm_num⟩

/-- C3 amended: the displayed intensity in default grayscale mode is
`(v - min_val) / max_val`, unclamped; out-of-range samples emit the
corresponding warning and are displayed unchanged; and when
`min_val = 0` and `max_val > 0` (but not in general) an out-of-range
sample's normalized value falls outside `[0, 1]`. -/
theorem C3_amended_unclamped (mn mx v : ℚ) :
    (Grid.make 1 1 mn mx 1 (PyVal.int 0) (PyVal.int 1)).plotCore [v]
      = ((if v < mn then [Effect.warnLow v mn] else []) ++
         (if v > mx then [Effect.warnHigh v mx] else []),
         Except.ok [[Pixel.grey ((v - mn) / mx)]])
    ∧ (mn = 0 → 0 < mx → (v < mn ∨ v > mx) →
        ¬(0 ≤ (v - mn) / mx ∧ (v - mn) / mx ≤ 1)) := by
  constructor
  · simp only [Grid.plotCore]
    rw [if_neg (by simp : ¬([v] : List ℚ) = [])]
    simp only [List.length_map, List.length_singleton]
    rw [if_pos (by rfl : (1 : ℕ)
          = (Grid.make 1 1 mn mx 1 (PyVal.int 0) (PyVal.int 1)).rows
            * (Grid.make 1 1 mn mx 1 (PyVal.int 0) (PyVal.int 1)).cols)]
    simp only [List.map_cons, List.map_nil, reshapeRows, List.take, List.drop]
    have hmap : (Grid.make 1 1 mn mx 1 (PyVal.int 0) (PyVal.int 1)).mapGrid
        [[(Grid.make 1 1 mn mx 1 (PyVal.int 0) (PyVal.int 1)).normalize v]]
        = some [[Pixel.grey ((v - mn) / mx)]] := rfl
    simp only [hmap]
    have h1 : listMin [v] = v := rfl
    have h2 : listMax [v] = v := rfl
    have h3 : (Grid.make 1 1 mn mx 1 (PyVal.int 0) (PyVal.int 1)).min_val = mn := rfl
    have h4 : (Grid.make 1 1 mn mx 1 (PyVal.int 0) (PyVal.int 1)).max_val = mx := rfl
    have h5 : (Grid.make 1 1 mn mx 1 (PyVal.int 0) (PyVal.int 1)).scale = (1, 1) := rfl
    simp only [h1, h2, h3, h4, h5]
    rw [resizeNearest_single]
    simp only [Grid.warnEffects, h1, h2, h3, h4]
  · intro h0 hmx hv
    subst h0
    rintro ⟨hle, hge⟩
    rw [sub_zero] at hle hge
    rcases hv with hlt | hgt
    · have : v / mx < 0 := div_neg_of_neg_of_pos hlt hmx
      linarith
    · have : 1 < v / mx := (one_lt_div hmx).mpr hgt
      linarith

/-- C3 amended, witness: at `min_val = 0`, `max_val = 100`, the sample
`150` is displayed as `1.5`, outside `[0, 1]`. -/
theorem C3_amended_unclamped_witness :
    (Grid.make 1 1 0 100 1 (PyVal.int 0) (PyVal.int 1)).plotCore [150]
      = ([Effect.warnHigh 150 100], Except.ok [[Pixel.grey ((150 - 0) / 100)]])
    ∧ ¬(0 ≤ ((150 : ℚ) - 0) / 100 ∧ ((150 : ℚ) - 0) / 100 ≤ 1) := by
  have h := C3_amended_unclamped 0 100 150
  refine ⟨?_, h.2 rfl (by norm_num) (Or.inr (by norm_num))⟩
  rw [h.1]
  norm_num

/-- C4 counterexample: an input line with zero convertible tokens
(e.g. the empty line returned on a read timeout) has a token count
(0) different from `rows * cols`, but the frame does not fail at the
reshape step: `data.min()` on the empty array raises `ValueError`
first, before reshape is reached.  The frame is still skipped. -/
theorem C4_empty_line_fails_before_reshape :
    (floatTokens "").1.length = 0
    ∧ (0 : ℕ) ≠ 2 * 2
    ∧ ((Grid.make 2 2 0 100 1 (PyVal.int 0) (PyVal.int 1)).plot_data "").2
        = Except.error PlotErr.emptyData
    ∧ PlotErr.emptyData ≠ PlotErr.reshapeMismatch := by
  decide

/-- C4 amended: for every input line whose count of successfully
converted tokens differs from `rows * cols`, `plot_data` fails for
that frame — at the reshape step when at least one token converted, at
the `data.min()` step when none did — the error is of the caught
`ValueError` class, and the read loop prints it and continues to the
next iteration unchanged. -/
theorem C4_amended_wrong_token_count (g : Grid) (line : String)
    (h : (floatTokens line).1.length ≠ g.rows * g.cols) :
    ∃ e, (g.plot_data line).2 = Except.error e
      ∧ e = (if (floatTokens line).1 = [] then PlotErr.emptyData
             else PlotErr.reshapeMismatch)
      ∧ ∀ (fuel : ℕ) (k : ℤ) (keys : List ℤ) (lines : List String),
          mask k ∉ EXIT_KEYS → mask k ∉ PAUSE_KEYS →
          g.runLoop (fuel + 1) (k :: keys) (line :: lines)
            = (Effect.readline :: (g.plot_data line).1
                ++ Effect.printFrameErr e :: (g.runLoop fuel keys lines).1,
               (g.runLoop fuel keys lines).2) := by
  refine ⟨if (floatTokens line).1 = [] then PlotErr.emptyData
          else PlotErr.reshapeMismatch, ?_, rfl, ?_⟩
  case _ =>
    show (g.plotCore (floatTokens line).1).2 = _
    by_cases hd : (floatTokens line).1 = []
    · rw [if_pos hd]
      rw [hd]
      rfl
    · rw [if_neg hd]
      simp only [Grid.plotCore]
      rw [if_neg hd]
      simp only [List.length_map]
      rw [if_neg h]
  case _ =>
    intro fuel k keys lines hk1 hk2
    have herr : (g.plot_data line).2
        = Except.error (if (floatTokens line).1 = [] then PlotErr.emptyData
                        else PlotErr.reshapeMismatch) := by
      show (g.plotCore (floatTokens line).1).2 = _
      by_cases hd : (floatTokens line).1 = []
      · rw [if_pos hd, hd]; rfl
      · rw [if_neg hd]
        simp only [Grid.plotCore]
        rw [if_neg hd]
        simp only [List.length_map]
        rw [if_neg h]
    show Grid.runLoop _ _ _ _ = _
    conv_lhs => rw [Grid.runLoop]
    rw [if_neg hk1, if_neg hk2]
    unfold Grid.frameStep
    simp only [List.headD_cons, List.tail_cons, herr, List.cons_append,
      List.append_assoc, List.singleton_append, List.nil_append]

/-- C4 amended, witness: a 3-token line on a 2×2 grid fails at the
reshape step and the loop carries on. -/
theorem C4_amended_wrong_token_count_witness :
    ((Grid.make 2 2 0 100 1 (PyVal.int 0) (PyVal.int 1)).plot_data "1\t2\t3").2
        = Except.error PlotErr.reshapeMismatch
    ∧ (Grid.make 2 2 0 100 1 (PyVal.int 0) (PyVal.int 1)).runLoop 1 [0] ["1\t2\t3"]
        = (Effect.readline
            :: ((Grid.make 2 2 0 100 1 (PyVal.int 0) (PyVal.int 1)).plot_data "1\t2\t3").1
            ++ [Effect.printFrameErr PlotErr.reshapeMismatch],
           LoopExit.outOfKeys) := by
  obtain ⟨e, h1, h2, h3⟩ := C4_amended_wrong_token_count
      (Grid.make 2 2 0 100 1 (PyVal.int 0) (PyVal.int 1)) "1\t2\t3" (by decide)
  rw [if_neg (by decide : ¬(floatTokens "1\t2\t3").1 = [])] at h2
  subst h2
  refine ⟨h1, ?_⟩
  have h4 := h3 0 0 [] [] (by decide) (by decide)
  simpa using h4

/-- C5: in colour mode (3-tuples) the displayed channel for a
normalized value `n` is `n * (max_channel - min_channel) + min_channel`
for each of the three channels, and in explicit-grayscale mode (int
`min_colour`, numeric `max_colour`, not the 0/1 default) the intensity
is `n * (max_colour - min_colour) + min_colour`.  The coefficients are
exactly the `_map_scale` / `_map_offset` fields computed by
`Grid.make` from the construction arguments, which are never
reassigned. -/
theorem C5_colour_map_linear (rows cols cl : ℕ) (mn mx : ℚ)
    (b g r b2 g2 r2 n : ℚ) (m : ℤ) (x : ℚ)
    (hm : ¬((m : ℚ) = 0 ∧ x = 1)) :
    (Grid.make rows cols mn mx cl (PyVal.tuple3 b g r)
        (PyVal.tuple3 b2 g2 r2)).mapPixel n
      = some (.bgr (n * (b2 - b) + b) (n * (g2 - g) + g) (n * (r2 - r) + r))
    ∧ (Grid.make rows cols mn mx cl (PyVal.int m) (PyVal.float x)).mapPixel n
      = some (.grey (n * (x - (m : ℚ)) + (m : ℚ))) := by
  constructor
  · rfl
  · have hmode : gridMode (PyVal.int m) (PyVal.float x) = Mode.GREY := by
      unfold gridMode
      rw [if_neg]
      · rfl
      · rintro ⟨-, h1, h2⟩
        exact hm ⟨by simpa [PyVal.numEq, PyVal.num?] using h1,
                  by simpa [PyVal.numEq, PyVal.num?] using h2⟩
    simp only [Grid.mapPixel, Grid.make, hmode]
    rw [if_neg (by simp : ¬Mode.GREY = Mode.DEFAULT)]
    rfl

/-- C5 witness: the spec's own example — `min_colour = (0,0,0)`,
`max_colour = (1,1,1)`, normalized value `1/2` gives BGR
`(0.5, 0.5, 0.5)`; and grayscale from int 2 to 7 maps `1/2` to
`1/2 * (7 - 2) + 2`. -/
theorem C5_colour_map_linear_witness :
    (Grid.make 1 1 0 1 1 (PyVal.tuple3 0 0 0) (PyVal.tuple3 1 1 1)).mapPixel (1 / 2)
      = some (.bgr (1 / 2 * (1 - 0) + 0) (1 / 2 * (1 - 0) + 0) (1 / 2 * (1 - 0) + 0))
    ∧ (Grid.make 1 1 0 1 1 (PyVal.int 2) (PyVal.float 7)).mapPixel (1 / 2)
      = some (.grey (1 / 2 * (7 - ((2 : ℤ) : ℚ)) + ((2 : ℤ) : ℚ))) :=
  C5_colour_map_linear 1 1 1 0 1 0 0 0 1 1 1 (1 / 2) 2 7 (by norm_num)

/-- Token conversion emits only `tokenDropped` diagnostics (helper). -/
theorem floatTokens_no_close (line : String) :
    Effect.close ∉ (floatTokens line).2 ∧ Effect.destroy ∉ (floatTokens line).2 := by
  unfold floatTokens
  generalize splitTab (pyStrip line.data) = toks
  induction toks with
  | nil => simp
  | cons t ts ih =>
    simp only [List.foldr_cons]
    cases h : pySigned pyFloatCore (pyStrip t) <;> simp_all

/-- The numeric pipeline emits only range warnings (helper). -/
theorem plotCore_no_close (g : Grid) (data : List ℚ) :
    Effect.close ∉ (g.plotCore data).1 ∧ Effect.destroy ∉ (g.plotCore data).1 := by
  have hk : ∀ e ∈ (g.plotCore data).1,
      e.kind = EffectKind.warnLow ∨ e.kind = EffectKind.warnHigh := by
    intro e he
    unfold Grid.plotCore at he
    have hw : ∀ e2 ∈ g.warnEffects data,
        e2.kind = EffectKind.warnLow ∨ e2.kind = EffectKind.warnHigh := by
      intro e2 he2
      unfold Grid.warnEffects at he2
      rcases List.mem_append.mp he2 with h | h <;> split at h <;>
        simp_all [Effect.kind]
    split at he
    · simp at he
    · split at he
      · split at he <;> exact hw e (by simpa using he)
      · exact hw e (by simpa using he)
  constructor <;> intro hmem <;> rcases hk _ hmem with h | h <;>
    simp [Effect.kind] at h

/-- `plot_data` never closes the port or destroys the window (helper). -/
theorem plot_data_no_close (g : Grid) (line : String) :
    Effect.close ∉ (g.plot_data line).1 ∧ Effect.destroy ∉ (g.plot_data line).1 := by
  unfold Grid.plot_data
  have h1 := floatTokens_no_close line
  have h2 := plotCore_no_close g (floatTokens line).1
  simp_all

/-- One frame attempt never closes the port or destroys the window
(helper). -/
theorem frameStep_no_close (g : Grid) (lines : List String) :
    Effect.close ∉ (g.frameStep lines).1 ∧ Effect.destroy ∉ (g.frameStep lines).1 := by
  unfold Grid.frameStep
  have h := plot_data_no_close g (lines.headD "")
  split <;> simp_all

/-- The pause sub-loop never closes the port or destroys the window
(helper). -/
theorem pauseLoop_no_close (key : ℤ) (keys : List ℤ) (lines : List String) :
    Effect.close ∉ (pauseLoop key keys lines).1
    ∧ Effect.destroy ∉ (pauseLoop key keys lines).1 := by
  induction keys generalizing key lines with
  | nil =>
    unfold pauseLoop
    split_ifs <;> simp
  | cons k2 rest ih =>
    unfold pauseLoop
    split_ifs <;> simp_all [ih k2 lines.tail]

/-- The main loop never closes the port or destroys the window
(helper). -/
theorem runLoop_no_close (g : Grid) (fuel : ℕ) (keys : List ℤ) (lines : List String) :
    Effect.close ∉ (g.runLoop fuel keys lines).1
    ∧ Effect.destroy ∉ (g.runLoop fuel keys lines).1 := by
  induction fuel generalizing keys lines with
  | zero => simp [Grid.runLoop]
  | succ n ih =>
    cases keys with
    | nil => simp [Grid.runLoop]
    | cons k ks =>
      rw [Grid.runLoop]
      split_ifs with h1 h2
      · simp
      · have hp := pauseLoop_no_close k ks lines
        rcases hpair : pauseLoop k ks lines with ⟨es, pres⟩
        rw [hpair] at hp
        cases pres with
        | resumed keys2 lines2 =>
          have hf := frameStep_no_close g lines2
          have hr := ih keys2 (g.frameStep lines2).2
          simp_all
        | quit => simp_all
        | outOfKeys => simp_all
      · have hf := frameStep_no_close g lines
        have hr := ih ks (g.frameStep lines).2
        simp_all

/-- C7: on each exit path listed by the claim — user quit from the main
loop, quit while paused, and the fatal colour-validity errors raised
inside the `try` at construction — the run's trace ends with exactly
the `finally` effects `close`, the closed message, and `destroy`, and
contains no earlier `close` or `destroy`: the serial handle is closed
exactly once and the window destroyed before the run ends.  (The two
excluded exits are the model-only fuel exhaustion, where the run has
not ended, and the `TypeError` at line 92, which the source raises
before the `try`/`finally` exists.) -/
theorem C7_close_once_on_listed_exits (rows cols : ℕ) (mn mx : ℚ) (cl : ℕ)
    (minc maxc : PyVal) (fuel : ℕ) (keys : List ℤ) (lines : List String)
    (h1 : (Grid.run rows cols mn mx cl minc maxc fuel keys lines).2
            ≠ RunExit.outOfKeys)
    (h2 : (Grid.run rows cols mn mx cl minc maxc fuel keys lines).2
            ≠ RunExit.fatalSetup) :
    ∃ es, (Grid.run rows cols mn mx cl minc maxc fuel keys lines).1
            = es ++ finallyEffects
      ∧ Effect.close ∉ es ∧ Effect.destroy ∉ es := by
  unfold Grid.run at h1 h2 ⊢
  split_ifs at h1 h2 ⊢
  · simp at h2
  · have hno := runLoop_no_close
      (Grid.make rows cols mn mx cl minc maxc) fuel keys lines.tail
    generalize (Grid.make rows cols mn mx cl minc maxc).runLoop
        fuel keys lines.tail = p at h1 h2 hno ⊢
    generalize colourCheck (gridMode minc maxc) minc maxc = c at h1 h2 ⊢
    rcases c with _ | e
    · rcases p with ⟨es, ex⟩
      cases ex with
      | outOfKeys => simp at h1
      | quitMain =>
        refine ⟨[Effect.readline, Effect.namedWindow] ++ es, by simp, ?_, ?_⟩
          <;> simp_all
      | quitPaused =>
        refine ⟨[Effect.readline, Effect.namedWindow] ++ es, by simp, ?_, ?_⟩
          <;> simp_all
    · exact ⟨[Effect.readline, Effect.namedWindow], rfl, by simp, by simp⟩

/-- C7 witness: a run quit with `q` on the first key closes the port
once and destroys the window at the end. -/
theorem C7_close_once_on_listed_exits_witness :
    (Grid.run 1 1 0 1 1 (PyVal.int 0) (PyVal.int 1) 1 [113] ["x"]).2
        ≠ RunExit.outOfKeys
    ∧ (Grid.run 1 1 0 1 1 (PyVal.int 0) (PyVal.int 1) 1 [113] ["x"]).2
        ≠ RunExit.fatalSetup
    ∧ ∃ es, (Grid.run 1 1 0 1 1 (PyVal.int 0) (PyVal.int 1) 1 [113] ["x"]).1
          = es ++ finallyEffects
        ∧ Effect.close ∉ es ∧ Effect.destroy ∉ es :=
  ⟨by decide, by decide,
   C7_close_once_on_listed_exits 1 1 0 1 1 (PyVal.int 0) (PyVal.int 1)
     1 [113] ["x"] (by decide) (by decide)⟩

/-- C8: during configuration resolution, a `baud`, `timeout` or
`clarity` field that fails to parse is replaced by its hardcoded
default (9600, 5 seconds, 10) with a diagnostic, whereas a malformed
`rows`, `cols`, `min_val` or `max_val` has no fallback and aborts
resolution with a fatal parse error (in source order: `rows` first,
then `cols`, `min_val`, `max_val`). -/
theorem C8_fallbacks_and_fatal_fields (raw : RawSettings)
    (em ex : Option PyVal) :
    (∀ s, (resolveSettings raw em ex).2 = Except.ok s →
       (pyInt raw.baud = none → s.baud = 9600 ∧ Msg.invalidBaud ∈ (resolveSettings raw em ex).1)
       ∧ (pyFloat raw.timeout = none → s.timeout = 5 ∧ Msg.invalidTimeout ∈ (resolveSettings raw em ex).1)
       ∧ (pyInt raw.clarity = none → s.clarity = 10 ∧ Msg.invalidClarity ∈ (resolveSettings raw em ex).1))
    ∧ (pyInt raw.rows = none →
        (resolveSettings raw em ex).2 = Except.error FatalField.rowsField)
    ∧ (pyInt raw.rows ≠ none → pyInt raw.cols = none →
        (resolveSettings raw em ex).2 = Except.error FatalField.colsField)
    ∧ (pyInt raw.rows ≠ none → pyInt raw.cols ≠ none →
        pyFloat raw.min_val = none →
        (resolveSettings raw em ex).2 = Except.error FatalField.minValField)
    ∧ (pyInt raw.rows ≠ none → pyInt raw.cols ≠ none →
        pyFloat raw.min_val ≠ none → pyFloat raw.max_val = none →
        (resolveSettings raw em ex).2 = Except.error FatalField.maxValField) := by
  refine ⟨?_, ?_, ?_, ?_, ?_⟩
  · intro s hs
    rcases hrows : pyInt raw.rows with _ | rows <;>
      rcases hcols : pyInt raw.cols with _ | cols <;>
      rcases hminv : pyFloat raw.min_val with _ | minv <;>
      rcases hmaxv : pyFloat raw.max_val with _ | maxv <;>
      simp only [resolveSettings, hrows, hcols, hminv, hmaxv] at hs <;>
      try exact Except.noConfusion hs
    have hrec := Except.ok.inj hs
    subst hrec
    refine ⟨fun hb => ⟨?_, ?_⟩, fun ht => ⟨?_, ?_⟩, fun hc => ⟨?_, ?_⟩⟩ <;>
      simp [resolveSettings, hrows, hcols, hminv, hmaxv, *]
  · intro hrows
    simp [resolveSettings, hrows]
  · intro hrows hcols
    rcases h : pyInt raw.rows with _ | rows
    · exact absurd h hrows
    · simp [resolveSettings, h, hcols]
  · intro hrows hcols hminv
    rcases h : pyInt raw.rows with _ | rows
    · exact absurd h hrows
    · rcases h2 : pyInt raw.cols with _ | cols
      · exact absurd h2 hcols
      · simp [resolveSettings, h, h2, hminv]
  · intro hrows hcols hminv hmaxv
    rcases h : pyInt raw.rows with _ | rows
    · exact absurd h hrows
    · rcases h2 : pyInt raw.cols with _ | cols
      · exact absurd h2 hcols
      · rcases h3 : pyFloat raw.min_val with _ | minv
        · exact absurd h3 hminv
        · simp [resolveSettings, h, h2, h3, hmaxv]

/-- C8 witness: with unparsable `baud`, `timeout` and `clarity` fields
the resolved settings carry 9600, 5 and 10, while an unparsable `rows`
field aborts resolution. -/
theorem C8_fallbacks_and_fatal_fields_witness :
    pyInt "abc" = none ∧ pyFloat "xx" = none ∧ pyInt "zz" = none
    ∧ (resolveSettings ⟨"COM3", "abc", "xx", "2", "3", "0", "500", "zz", "0", "(1,1,1)"⟩
        (some (PyVal.int 0)) (some (PyVal.tuple3 1 1 1))).2
        = Except.ok ⟨9600, 5, 2, 3, 0, 500, 10, PyVal.int 0, PyVal.tuple3 1 1 1⟩
    ∧ (9600 : ℤ) = 9600 ∧ (5 : ℚ) = 5 ∧ (10 : ℤ) = 10
    ∧ (resolveSettings ⟨"p", "9600", "1", "rr", "2", "0", "500", "10", "0", "1"⟩
        none none).2 = Except.error FatalField.rowsField := by
  have hok : (resolveSettings
      ⟨"COM3", "abc", "xx", "2", "3", "0", "500", "zz", "0", "(1,1,1)"⟩
      (some (PyVal.int 0)) (some (PyVal.tuple3 1 1 1))).2
      = Except.ok ⟨9600, 5, 2, 3, 0, 500, 10, PyVal.int 0, PyVal.tuple3 1 1 1⟩ := by
    decide
  have h := C8_fallbacks_and_fatal_fields
    ⟨"COM3", "abc", "xx", "2", "3", "0", "500", "zz", "0", "(1,1,1)"⟩
    (some (PyVal.int 0)) (some (PyVal.tuple3 1 1 1))
  have hb := (h.1 _ hok).1 (by decide)
  have ht := (h.1 _ hok).2.1 (by decide)
  have hc := (h.1 _ hok).2.2 (by decide)
  have hr := (C8_fallbacks_and_fatal_fields
    ⟨"p", "9600", "1", "rr", "2", "0", "500", "10", "0", "1"⟩ none none).2.1
    (by decide)
  exact ⟨by decide, by decide, by decide, hok, hb.1, ht.1, hc.1, hr⟩

end SerialGrid
